import Mathlib

/-!
Verification of the Sonauto API example scripts (`rock_song_generator.py`,
`singing_telegram.py`, `transition_generator.py`) against their design
specification.

The scripts are thin HTTP clients: submit a generation job, poll a status
endpoint on a fixed interval, and download the resulting artifact.  We embed
them shallowly: the remote world (responses to each HTTP call) is a record of
values, console output and file writes are recorded as events, and each Python
function becomes a total Lean function from a world to an outcome.  A call of
`requests` that raises is modelled by a `none`/failure value in the world;
a poll loop that never observes a terminal status on the supplied finite trace
is modelled by the `hang` result.
-/

namespace SonautoExamples

/-- Observable events of a script run: console messages and HTTP traffic.
Each constructor corresponds to one `print` call or one outgoing request in
the Python sources. -/
inductive Ev where
  /-- `print` of the Sonauto key warning (placeholder / missing key). -/
  | keyWarning
  /-- `print` of the Lemon Slice key warning in `check_api_keys`. -/
  | lemonKeyWarning
  /-- `POST {base}/generations` (or `/generations/inpaint`). -/
  | httpSubmit
  /-- `GET {base}/generations/status/{task_id}`. -/
  | httpStatusPoll
  /-- `GET {base}/generations/{task_id}` (result or error detail fetch). -/
  | httpGenFetch
  /-- Unauthenticated `requests.get` of an artifact URL. -/
  | httpDownload (url : String)
  /-- `POST {base2}/generate` (Lemon Slice video job submission). -/
  | httpVideoSubmit
  /-- `GET {base2}/generations/{job_id}` (Lemon Slice status poll). -/
  | httpVideoPoll
  /-- `print` inside `api_request`'s exception handler (API Error). -/
  | apiError
  /-- `print(f"Status: {status}")` on a status change. -/
  | statusLine (s : String)
  /-- `print(f"... failed: {error_message}")` on terminal failure. -/
  | genFailed (msg : String)
  /-- `print` when the error-detail fetch itself failed. -/
  | genFailedNoDetails
  /-- `display_results` output block. -/
  | displayResults
  /-- `print` that the audio artifact was saved to a file. -/
  | saved (filename : String)
  /-- `print` in the download exception handler. -/
  | downloadError
  /-- telegram: `print(f"... Song generation failed: {msg}")`. -/
  | songFailed (msg : String)
  /-- telegram: the outer `except` of `generate_custom_song` fired. -/
  | errorDuringSong
  /-- telegram: the outer `except` of `create_singing_video` fired. -/
  | errorDuringVideo
  /-- telegram: `print("Waiting for video to complete...")`. -/
  | waitingForVideo
  /-- telegram: `print` that video generation failed with a status. -/
  | videoFailed (st : Option String)
  /-- telegram: `print` that the video was saved. -/
  | videoSaved (filename : String)
  /-- transition: file-size reduction still above the limit. -/
  | fileTooLarge
  deriving DecidableEq

/-- Events that are outgoing HTTP requests (as opposed to console output). -/
def isHttpEv : Ev → Bool
  | Ev.httpSubmit => true
  | Ev.httpStatusPoll => true
  | Ev.httpGenFetch => true
  | Ev.httpDownload _ => true
  | Ev.httpVideoSubmit => true
  | Ev.httpVideoPoll => true
  | _ => false

/-- The JSON object returned by `GET {base}/generations/{task_id}`:
`song_paths`, `lyrics`, `seed`, `tags`, and (on failure) `error_message`.
Optional fields model `.get` on a dict that may lack the key. -/
structure ResultData where
  song_paths : List String
  lyrics : Option String
  seed : Option Int
  tags : List String
  error_message : Option String
  deriving DecidableEq

/-- Result of running a Python function: a normal return, an infinite poll
loop (the supplied response trace was exhausted with the loop still going),
or an exception escaping the function. -/
inductive PyRun (α : Type) where
  | ret (a : α)
  | hang
  | exc
  deriving DecidableEq

/-- Outcome of a function run: recorded events, files written
(filename, bytes — bytes are abstract `List Nat`), and the return value. -/
structure Outcome (α : Type) where
  events : List Ev
  files : List (String × List Nat)
  result : α
  deriving DecidableEq

/-- Python truthiness test `not x` for an optional string
(`None` and the empty string are falsy). -/
def pyFalsyOptStr : Option String → Bool
  | none => true
  | some s => s.isEmpty

/-- `os.getenv(key, default)`: the environment is a partial map. -/
def getenvD (env : String → Option String) (key d : String) : String :=
  (env key).getD d

/-- The environment variable name holding the Sonauto key. -/
def sonautoKeyVar : String := "SONAUTO_API_KEY"

/-- The placeholder default for the Sonauto key. -/
def sonautoPlaceholder : String := "your_sonauto_api_key"

/-- The placeholder default for the Lemon Slice key. -/
def lemonPlaceholder : String := "your_lemonslice_api_key"

/-- Default message when the failure detail lacks `error_message`
(rock_song_generator.py line 101 and transition_generator.py line 194). -/
def noDetailMsg : String := "No detailed error message available"

/-- Default message when the failure detail lacks `error_message`
(singing_telegram.py line 86). -/
def unknownErrorMsg : String := "Unknown error"

/-- The status string carried by a `statusLine` event, if any. -/
def evLine : Ev → Option String
  | Ev.statusLine s => some s
  | _ => none

/-- The status lines among a list of events, in order. -/
def statusLines (evs : List Ev) : List String :=
  evs.filterMap evLine

namespace Rock

/-- The two strings the poll loop of `rock_song_generator.py` treats as
terminal (`if status in ["SUCCESS", "FAILURE"]`, line 56). -/
def terminalStatuses : List String := [ "SUCCESS", "FAILURE" ]

/-- The remote world seen by one run of `rock_song_generator.py`.
Each field is the outcome of the corresponding HTTP interaction. -/
structure RockWorld where
  /-- `task_id` extracted from `POST generations`; `none` models
  `api_request` returning `None` (a `RequestException` was caught). -/
  submit : Option String
  /-- Successive responses of `GET generations/status/{task_id}`, already
  stripped of surrounding quotes; a `none` entry models `api_request`
  returning `None` at that poll. -/
  statusTrace : List (Option String)
  /-- Body of `GET generations/{task_id}` (used for the error detail on
  failure and for the result on success); `none` models a failed request. -/
  genResp : Option ResultData
  /-- `requests.get` of a CDN artifact URL: the bytes served, or `none`
  when the request raises. -/
  fetch : String → Option (List Nat)

/-- Shallow embedding of `poll_status` (rock_song_generator.py lines 43-59),
run against a finite trace of responses.  The first argument is
`prev_status` (`None` initially).  Returns the events of the loop and its
return value; a `none` return value means the trace was exhausted with the
loop still running (in Python the loop would keep polling forever). -/
def poll_status : Option String → List (Option String) → List Ev × Option String
  | _, [] => ([], none)
  | _, none :: _ => ([Ev.httpStatusPoll, Ev.apiError], some "FAILURE")
  | prev, some s :: rest =>
    let line := if prev = some s then [] else [Ev.statusLine s]
    if s ∈ terminalStatuses then
      ([Ev.httpStatusPoll] ++ line, some s)
    else
      let next := poll_status (some s) rest
      ([Ev.httpStatusPoll] ++ line ++ next.1, next.2)

/-- Shallow embedding of `generate_rock_song`
(rock_song_generator.py lines 73-131). -/
def generate_rock_song (API_KEY : String) (w : RockWorld) :
    PyRun (Outcome (Option String)) :=
  if API_KEY = sonautoPlaceholder then
    PyRun.ret ⟨[Ev.keyWarning], [], none⟩
  else
    match w.submit with
    | none => PyRun.ret ⟨[Ev.httpSubmit, Ev.apiError], [], none⟩
    | some task_id =>
      let p := poll_status none w.statusTrace
      match p.2 with
      | none => PyRun.hang
      | some status =>
        let evs := [Ev.httpSubmit] ++ p.1
        if status = "FAILURE" then
          match w.genResp with
          | some error_data =>
            let msg := error_data.error_message.getD noDetailMsg
            PyRun.ret ⟨evs ++ [Ev.httpGenFetch, Ev.genFailed msg], [], none⟩
          | none =>
            PyRun.ret
              ⟨evs ++ [Ev.httpGenFetch, Ev.apiError, Ev.genFailedNoDetails],
               [], none⟩
        else
          match w.genResp with
          | none => PyRun.ret ⟨evs ++ [Ev.httpGenFetch, Ev.apiError], [], none⟩
          | some result_data =>
            match result_data.song_paths with
            | [] => PyRun.exc
            | song_url :: _ =>
              let song_filename := "rock_song_" ++ task_id ++ ".ogg"
              match w.fetch song_url with
              | none =>
                PyRun.ret
                  ⟨evs ++ [Ev.httpGenFetch, Ev.displayResults,
                           Ev.httpDownload song_url, Ev.downloadError],
                   [], none⟩
              | some bytes =>
                PyRun.ret
                  ⟨evs ++ [Ev.httpGenFetch, Ev.displayResults,
                           Ev.httpDownload song_url, Ev.saved song_filename],
                   [(song_filename, bytes)], some song_filename⟩

/-- Exit code of `python rock_song_generator.py`
(`if not song_file: sys.exit(1)`, lines 133-136).  `none` when the process
never exits (infinite poll loop); an uncaught exception makes Python exit
with code 1. -/
def mainExit (API_KEY : String) (w : RockWorld) : Option Nat :=
  match generate_rock_song API_KEY w with
  | PyRun.ret o => some (if pyFalsyOptStr o.result then 1 else 0)
  | PyRun.hang => none
  | PyRun.exc => some 1

end Rock

namespace Telegram

/-- The status string the Lemon Slice poll loop continues on
(`while status == "pending"`, singing_telegram.py line 146). -/
def pendingStr : String := "pending"

/-- The terminal status the Lemon Slice path treats as success
(`if status == "completed"`, singing_telegram.py line 158). -/
def completedStr : String := "completed"

/-- Body of one `GET {base2}/generations/{job_id}` response:
`data.get("status")` and `data.get("video_url")` (either may be absent). -/
structure VideoResp where
  status : Option String
  video_url : Option String
  deriving DecidableEq

/-- The remote world seen by one run of `singing_telegram.py`. -/
structure TelegramWorld where
  /-- `task_id` from `POST generations`; `none` models an exception from
  `requests.post` or `raise_for_status` (caught by the outer `except`). -/
  submit : Option String
  /-- Successive stripped bodies of the status `GET`; a `none` entry models
  an exception raised by that `requests.get`. -/
  statusTrace : List (Option String)
  /-- Parsed body of `GET generations/{task_id}`; `none` models an exception
  during that request or its `.json()`. -/
  genResp : Option ResultData
  /-- `requests.get` of the song URL; `none` models an exception. -/
  fetch : String → Option (List Nat)
  /-- `job_id` from `POST {base2}/generate`; `none` models an exception. -/
  videoSubmit : Option String
  /-- Successive parsed bodies of the video-status `GET`; a `none` entry
  models an exception raised during that poll. -/
  videoTrace : List (Option VideoResp)
  /-- `requests.get` of the video URL; `none` models an exception. -/
  videoFetch : String → Option (List Nat)

/-- The dict returned by `generate_custom_song` on success
(singing_telegram.py line 109). -/
structure SongData where
  song_url : String
  local_path : String
  lyrics : String
  task_id : String
  deriving DecidableEq

/-- Exit of the song poll loop of `generate_custom_song`. -/
inductive TgPoll where
  /-- The trace was exhausted with the loop still running. -/
  | hang
  /-- A status `GET` raised (handled by the outer `except`). -/
  | exc
  /-- The loop ended at terminal status `s` (SUCCESS via `break`,
  FAILURE via the failure branch). -/
  | terminal (s : String)
  deriving DecidableEq

/-- Shallow embedding of the song poll loop of `generate_custom_song`
(singing_telegram.py lines 71-90).  First argument is `prev_status`. -/
def tgSongPoll : Option String → List (Option String) → List Ev × TgPoll
  | _, [] => ([], TgPoll.hang)
  | _, none :: _ => ([Ev.httpStatusPoll], TgPoll.exc)
  | prev, some s :: rest =>
    let line := if prev = some s then [] else [Ev.statusLine s]
    if s = "SUCCESS" then
      ([Ev.httpStatusPoll] ++ line, TgPoll.terminal s)
    else if s = "FAILURE" then
      ([Ev.httpStatusPoll] ++ line, TgPoll.terminal s)
    else
      let next := tgSongPoll (some s) rest
      ([Ev.httpStatusPoll] ++ line ++ next.1, next.2)

/-- Shallow embedding of `generate_custom_song`
(singing_telegram.py lines 53-113).  Every exception inside the function is
caught by its outer `except`, so the run never ends in `PyRun.exc`;
`PyRun.hang` models a trace exhausted inside the poll loop. -/
def generate_custom_song (w : TelegramWorld) :
    PyRun (Outcome (Option SongData)) :=
  match w.submit with
  | none => PyRun.ret ⟨[Ev.httpSubmit, Ev.errorDuringSong], [], none⟩
  | some task_id =>
    let p := tgSongPoll none w.statusTrace
    let evs := [Ev.httpSubmit] ++ p.1
    match p.2 with
    | TgPoll.hang => PyRun.hang
    | TgPoll.exc => PyRun.ret ⟨evs ++ [Ev.errorDuringSong], [], none⟩
    | TgPoll.terminal st =>
      if st = "FAILURE" then
        match w.genResp with
        | none => PyRun.ret ⟨evs ++ [Ev.httpGenFetch, Ev.errorDuringSong], [], none⟩
        | some error_data =>
          let msg := error_data.error_message.getD unknownErrorMsg
          PyRun.ret ⟨evs ++ [Ev.httpGenFetch, Ev.songFailed msg], [], none⟩
      else
        -- SUCCESS: the loop broke; fetch the result
        match w.genResp with
        | none => PyRun.ret ⟨evs ++ [Ev.httpGenFetch, Ev.errorDuringSong], [], none⟩
        | some result_data =>
          match result_data.song_paths with
          | [] =>
            -- `result["song_paths"][0]` raises; caught by the outer except
            PyRun.ret ⟨evs ++ [Ev.httpGenFetch, Ev.errorDuringSong], [], none⟩
          | song_url :: _ =>
            let lyrics := result_data.lyrics.getD "No lyrics found"
            let song_filename := "telegram_song_" ++ task_id ++ ".ogg"
            match w.fetch song_url with
            | none =>
              -- the file is opened before the download: an exception
              -- leaves an empty file behind
              PyRun.ret
                ⟨evs ++ [Ev.httpGenFetch, Ev.httpDownload song_url,
                         Ev.errorDuringSong],
                 [(song_filename, [])], none⟩
            | some bytes =>
              PyRun.ret
                ⟨evs ++ [Ev.httpGenFetch, Ev.httpDownload song_url,
                         Ev.saved song_filename],
                 [(song_filename, bytes)],
                 some ⟨song_url, song_filename, lyrics, task_id⟩⟩

/-- Exit of the video poll loop of `create_singing_video`. -/
inductive VideoPollOut where
  /-- The trace was exhausted with the status still `pending`. -/
  | hang
  /-- A poll `GET` raised (handled by the outer `except`). -/
  | exc
  /-- The loop exited; `d` is the last response body. -/
  | done (d : VideoResp)
  deriving DecidableEq

/-- Shallow embedding of the video poll loop of `create_singing_video`
(singing_telegram.py lines 145-156): the loop runs `while status ==
"pending"` and exits on any other value of `data.get("status")`. -/
def videoPollRun : List (Option VideoResp) → List Ev × VideoPollOut
  | [] => ([], VideoPollOut.hang)
  | none :: _ => ([Ev.httpVideoPoll], VideoPollOut.exc)
  | some d :: rest =>
    if d.status = some pendingStr then
      let next := videoPollRun rest
      ([Ev.httpVideoPoll, Ev.waitingForVideo] ++ next.1, next.2)
    else
      ([Ev.httpVideoPoll], VideoPollOut.done d)

/-- Shallow embedding of `create_singing_video`
(singing_telegram.py lines 115-175).  The result on success is
`(video_url, local_path)`. -/
def create_singing_video (w : TelegramWorld) (song : SongData) :
    PyRun (Outcome (Option (String × String))) :=
  match w.videoSubmit with
  | none => PyRun.ret ⟨[Ev.httpVideoSubmit, Ev.errorDuringVideo], [], none⟩
  | some _job_id =>
    let p := videoPollRun w.videoTrace
    let evs := [Ev.httpVideoSubmit] ++ p.1
    match p.2 with
    | VideoPollOut.hang => PyRun.hang
    | VideoPollOut.exc => PyRun.ret ⟨evs ++ [Ev.errorDuringVideo], [], none⟩
    | VideoPollOut.done d =>
      if d.status = some completedStr then
        let video_filename := "telegram_video_" ++ song.task_id ++ ".mp4"
        match d.video_url with
        | none =>
          -- `requests.get(None)` raises after the file was opened empty
          PyRun.ret ⟨evs ++ [Ev.errorDuringVideo], [(video_filename, [])], none⟩
        | some video_url =>
          match w.videoFetch video_url with
          | none =>
            PyRun.ret
              ⟨evs ++ [Ev.httpDownload video_url, Ev.errorDuringVideo],
               [(video_filename, [])], none⟩
          | some bytes =>
            PyRun.ret
              ⟨evs ++ [Ev.httpDownload video_url, Ev.videoSaved video_filename],
               [(video_filename, bytes)], some (video_url, video_filename)⟩
      else
        PyRun.ret ⟨evs ++ [Ev.videoFailed d.status], [], none⟩

/-- Shallow embedding of `check_api_keys` (singing_telegram.py lines 43-51). -/
def check_api_keys (sonKey lemonKey : String) : List Ev × Bool :=
  if sonKey = sonautoPlaceholder then ([Ev.keyWarning], false)
  else if lemonKey = lemonPlaceholder then ([Ev.lemonKeyWarning], false)
  else ([], true)

/-- Shallow embedding of `create_singing_telegram`
(singing_telegram.py lines 177-201). -/
def create_singing_telegram (sonKey lemonKey : String) (w : TelegramWorld) :
    PyRun (Outcome Bool) :=
  let ck := check_api_keys sonKey lemonKey
  if ck.2 = false then
    PyRun.ret ⟨ck.1, [], false⟩
  else
    match generate_custom_song w with
    | PyRun.hang => PyRun.hang
    | PyRun.exc => PyRun.exc
    | PyRun.ret so =>
      match so.result with
      | none => PyRun.ret ⟨ck.1 ++ so.events, so.files, false⟩
      | some song =>
        match create_singing_video w song with
        | PyRun.hang => PyRun.hang
        | PyRun.exc => PyRun.exc
        | PyRun.ret vo =>
          match vo.result with
          | none =>
            PyRun.ret ⟨ck.1 ++ so.events ++ vo.events,
                       so.files ++ vo.files, false⟩
          | some _ =>
            PyRun.ret ⟨ck.1 ++ so.events ++ vo.events,
                       so.files ++ vo.files, true⟩

/-- Exit code of `python singing_telegram.py`
(`if not success: sys.exit(1)`, lines 203-220). -/
def mainExit (sonKey lemonKey : String) (w : TelegramWorld) : Option Nat :=
  match create_singing_telegram sonKey lemonKey w with
  | PyRun.ret o => some (if o.result then 0 else 1)
  | PyRun.hang => none
  | PyRun.exc => some 1

end Telegram

namespace Transition

/-- The terminal statuses of the poll loop of `transition_generator.py`
(`if status in ["SUCCESS", "FAILURE"]`, line 71). -/
def terminalStatuses : List String := [ "SUCCESS", "FAILURE" ]

/-- The remote world seen by `create_transition` in one run of
`transition_generator.py`. -/
structure TransWorld where
  /-- `task_id` from `POST generations/inpaint`; `none` models
  `api_request` returning `None`. -/
  submit : Option String
  /-- Successive stripped bodies of the status `GET`; `none` entries model
  `api_request` returning `None`. -/
  statusTrace : List (Option String)
  /-- Body of `GET generations/{task_id}`; `none` models a failed request. -/
  genResp : Option ResultData
  /-- `requests.get` of the artifact URL; `none` models an exception. -/
  fetch : String → Option (List Nat)
  /-- `os.path.getsize(audio_path)` in megabytes. -/
  fileSizeMB : ℚ
  /-- Size in megabytes after the mono/128k re-export. -/
  reducedSizeMB : ℚ
  /-- Whether the two YouTube downloads complete without raising. -/
  ytOk : Bool

/-- Shallow embedding of `poll_status` (transition_generator.py lines
58-74; the function is textually identical to the one in
rock_song_generator.py). -/
def poll_status : Option String → List (Option String) → List Ev × Option String
  | _, [] => ([], none)
  | _, none :: _ => ([Ev.httpStatusPoll, Ev.apiError], some "FAILURE")
  | prev, some s :: rest =>
    let line := if prev = some s then [] else [Ev.statusLine s]
    if s ∈ terminalStatuses then
      ([Ev.httpStatusPoll] ++ line, some s)
    else
      let next := poll_status (some s) rest
      ([Ev.httpStatusPoll] ++ line ++ next.1, next.2)

/-- Length in milliseconds of the pydub slice `seg[start:stop]` of a segment
of length `l`: both bounds are first clamped above by `l`, a negative bound
counts from the end, and the resulting frame range is clamped to the data
(`AudioSegment.__getitem__`).  Lengths are modelled as exact rationals. -/
def pydubSliceLen (l start stop : ℚ) : ℚ :=
  let s0 := min start l
  let e0 := min stop l
  let s1 := if s0 < 0 then s0 + l else s0
  let e1 := if e0 < 0 then e0 + l else e0
  max 0 (min e1 l - max s1 0)

/-- Shallow embedding of `create_concatenated_audio`
(transition_generator.py lines 96-133).  Audio segments are represented by
their pydub length in milliseconds; the inputs are the lengths of the two
loaded songs, and the result is
`(length of the combined audio, silence_start, silence_end)` with the two
boundaries in seconds, exactly as computed on lines 130-131. -/
def create_concatenated_audio (len1 len2 : ℚ)
    (song_duration silence_duration trim_from_end trim_to_start : ℚ) :
    ℚ × ℚ × ℚ :=
  let song1_duration := min (song_duration * 1000) len1
  let song2_duration := min (song_duration * 1000) len2
  let trim_from_end_ms := trim_from_end * 1000
  let trim_to_start_ms := trim_to_start * 1000
  -- song1 = song1[:song1_duration - trim_from_end_ms]
  let len1' := pydubSliceLen len1 0 (song1_duration - trim_from_end_ms)
  -- song2 = song2[trim_to_start_ms:song2_duration]
  let len2' := pydubSliceLen len2 trim_to_start_ms song2_duration
  let silenceLen := silence_duration * 1000
  let combined := len1' + silenceLen + len2'
  let silence_start := len1' / 1000 - 1 / 10
  let silence_end := (len1' + silenceLen) / 1000 + 1 / 10
  (combined, silence_start, silence_end)

/-- Shallow embedding of the submit/poll/fetch/download tail of
`create_transition` (transition_generator.py lines 166-220), after the
audio has been encoded. -/
def createTransitionBody (w : TransWorld) : PyRun (Outcome (Option String)) :=
  match w.submit with
  | none => PyRun.ret ⟨[Ev.httpSubmit, Ev.apiError], [], none⟩
  | some task_id =>
    let p := poll_status none w.statusTrace
    match p.2 with
    | none => PyRun.hang
    | some status =>
      let evs := [Ev.httpSubmit] ++ p.1
      if status = "FAILURE" then
        match w.genResp with
        | some error_data =>
          let msg := error_data.error_message.getD noDetailMsg
          PyRun.ret ⟨evs ++ [Ev.httpGenFetch, Ev.genFailed msg], [], none⟩
        | none =>
          PyRun.ret
            ⟨evs ++ [Ev.httpGenFetch, Ev.apiError, Ev.genFailedNoDetails],
             [], none⟩
      else
        match w.genResp with
        | none => PyRun.ret ⟨evs ++ [Ev.httpGenFetch, Ev.apiError], [], none⟩
        | some result_data =>
          match result_data.song_paths with
          | [] => PyRun.exc
          | song_url :: _ =>
            let output_path := "transition_" ++ task_id ++ ".ogg"
            match w.fetch song_url with
            | none =>
              PyRun.ret
                ⟨evs ++ [Ev.httpGenFetch, Ev.httpDownload song_url,
                         Ev.downloadError], [], none⟩
            | some bytes =>
              PyRun.ret
                ⟨evs ++ [Ev.httpGenFetch, Ev.httpDownload song_url,
                         Ev.saved output_path],
                 [(output_path, bytes)], some output_path⟩

/-- Shallow embedding of `create_transition`
(transition_generator.py lines 140-220), including the file-size guard on
lines 144-163. -/
def create_transition (w : TransWorld) : PyRun (Outcome (Option String)) :=
  if 35 < w.fileSizeMB then
    if 35 < w.reducedSizeMB then
      PyRun.ret ⟨[Ev.fileTooLarge], [], none⟩
    else
      createTransitionBody w
  else
    createTransitionBody w

/-- Shallow embedding of `main` (transition_generator.py lines 222-283).
`result` records whether a transition file was produced; note that `main`
simply returns after printing on a configuration error or a failed
workflow, so every normal return reaches the end of the script. -/
def transition_main (apiKey : Option String) (w : TransWorld) :
    PyRun (Outcome Bool) :=
  if pyFalsyOptStr apiKey then
    PyRun.ret ⟨[Ev.keyWarning], [], false⟩
  else if w.ytOk = false then
    PyRun.exc
  else
    match create_transition w with
    | PyRun.hang => PyRun.hang
    | PyRun.exc => PyRun.exc
    | PyRun.ret ct => PyRun.ret ⟨ct.events, ct.files, ct.result.isSome⟩

/-- Exit code of `python transition_generator.py`: the `__main__` guard
(lines 285-286) calls `main()` and never calls `sys.exit`, so a normal
return of `main` exits with code 0; an uncaught exception makes Python
exit with code 1. -/
def mainExit (apiKey : Option String) (w : TransWorld) : Option Nat :=
  match transition_main apiKey w with
  | PyRun.ret _ => some 0
  | PyRun.hang => none
  | PyRun.exc => some 1

end Transition

/-! ### Helper definitions and lemmas for the claims -/

/-- The wire string reported by the Sonauto status endpoint on success. -/
def successStr : String := "SUCCESS"

/-- The wire string reported by the Sonauto status endpoint on failure. -/
def failureStr : String := "FAILURE"

/-- An arbitrary in-progress status string used for concrete instances. -/
def processingStr : String := "processing"

@[simp] lemma evLine_statusLine (s : String) :
    evLine (Ev.statusLine s) = some s := rfl

@[simp] lemma evLine_httpStatusPoll : evLine Ev.httpStatusPoll = none := rfl

@[simp] lemma evLine_apiError : evLine Ev.apiError = none := rfl

@[simp] lemma statusLines_nil : statusLines [] = [] := rfl

@[simp] lemma statusLines_append (a b : List Ev) :
    statusLines (a ++ b) = statusLines a ++ statusLines b :=
  List.filterMap_append a b evLine

@[simp] lemma statusLines_cons (e : Ev) (evs : List Ev) :
    statusLines (e :: evs) = (evLine e).toList ++ statusLines evs := by
  cases h : evLine e <;> simp [statusLines, List.filterMap_cons, h]

/-- Number of status changes along a list of observed statuses, starting
from a previous observation `prev`: one count for each element that differs
from its predecessor (the first element always differs from `none`). -/
def changes : Option String → List String → Nat
  | _, [] => 0
  | prev, s :: rest => (if prev = some s then 0 else 1) + changes (some s) rest

/-- The prefix of a status trace that the Sonauto poll loops actually
process: everything up to and including the first terminal status. -/
def processedStatuses : List String → List String
  | [] => []
  | s :: rest =>
    if s = successStr ∨ s = failureStr then [s]
    else s :: processedStatuses rest

lemma mem_terminal_iff (s : String) :
    s ∈ Rock.terminalStatuses ↔ s = successStr ∨ s = failureStr := by
  simp [Rock.terminalStatuses, successStr, failureStr]

lemma trans_mem_terminal_iff (s : String) :
    s ∈ Transition.terminalStatuses ↔ s = successStr ∨ s = failureStr := by
  simp [Transition.terminalStatuses, successStr, failureStr]

lemma rock_poll_step_terminal (prev : Option String) (s : String)
    (rest : List (Option String)) (h : s ∈ Rock.terminalStatuses) :
    (Rock.poll_status prev (some s :: rest)).2 = some s := by
  simp [Rock.poll_status, h]

lemma rock_poll_step_nonterminal (prev : Option String) (s : String)
    (rest : List (Option String)) (h : s ∉ Rock.terminalStatuses) :
    (Rock.poll_status prev (some s :: rest)).2
      = (Rock.poll_status (some s) rest).2 := by
  simp [Rock.poll_status, h]

lemma rock_poll_all_nonterminal (ss : List String) :
    ∀ prev, (∀ s ∈ ss, s ∉ Rock.terminalStatuses) →
      (Rock.poll_status prev (ss.map some)).2 = none := by
  induction ss with
  | nil => intro prev _; simp [Rock.poll_status]
  | cons s rest ih =>
    intro prev h
    have hs : s ∉ Rock.terminalStatuses := h s (by simp)
    rw [List.map_cons, rock_poll_step_nonterminal prev s _ hs]
    exact ih (some s) fun x hx => h x (by simp [hx])

lemma rock_poll_result_terminal (trace : List (Option String)) :
    ∀ prev s, (Rock.poll_status prev trace).2 = some s →
      s = successStr ∨ s = failureStr := by
  induction trace with
  | nil => intro prev s h; simp [Rock.poll_status] at h
  | cons o rest ih =>
    intro prev s h
    cases o with
    | none =>
      have h0 : (Rock.poll_status prev (none :: rest)).2 = some failureStr := rfl
      rw [h0] at h
      injection h with h'
      right; rw [← h']
    | some st =>
      by_cases hterm : st ∈ Rock.terminalStatuses
      · rw [rock_poll_step_terminal prev st rest hterm] at h
        injection h with h'
        rw [← h']
        exact (mem_terminal_iff st).1 hterm
      · rw [rock_poll_step_nonterminal prev st rest hterm] at h
        exact ih (some st) s h

lemma trans_poll_step_terminal (prev : Option String) (s : String)
    (rest : List (Option String)) (h : s ∈ Transition.terminalStatuses) :
    (Transition.poll_status prev (some s :: rest)).2 = some s := by
  simp [Transition.poll_status, h]

lemma trans_poll_step_nonterminal (prev : Option String) (s : String)
    (rest : List (Option String)) (h : s ∉ Transition.terminalStatuses) :
    (Transition.poll_status prev (some s :: rest)).2
      = (Transition.poll_status (some s) rest).2 := by
  simp [Transition.poll_status, h]

lemma trans_poll_all_nonterminal (ss : List String) :
    ∀ prev, (∀ s ∈ ss, s ∉ Transition.terminalStatuses) →
      (Transition.poll_status prev (ss.map some)).2 = none := by
  induction ss with
  | nil => intro prev _; simp [Transition.poll_status]
  | cons s rest ih =>
    intro prev h
    have hs : s ∉ Transition.terminalStatuses := h s (by simp)
    rw [List.map_cons, trans_poll_step_nonterminal prev s _ hs]
    exact ih (some s) fun x hx => h x (by simp [hx])

lemma trans_poll_result_terminal (trace : List (Option String)) :
    ∀ prev s, (Transition.poll_status prev trace).2 = some s →
      s = successStr ∨ s = failureStr := by
  induction trace with
  | nil => intro prev s h; simp [Transition.poll_status] at h
  | cons o rest ih =>
    intro prev s h
    cases o with
    | none =>
      have h0 : (Transition.poll_status prev (none :: rest)).2
          = some failureStr := rfl
      rw [h0] at h
      injection h with h'
      right; rw [← h']
    | some st =>
      by_cases hterm : st ∈ Transition.terminalStatuses
      · rw [trans_poll_step_terminal prev st rest hterm] at h
        injection h with h'
        rw [← h']
        exact (trans_mem_terminal_iff st).1 hterm
      · rw [trans_poll_step_nonterminal prev st rest hterm] at h
        exact ih (some st) s h

lemma tg_poll_step_terminal (prev : Option String) (s : String)
    (rest : List (Option String)) (h : s = successStr ∨ s = failureStr) :
    (Telegram.tgSongPoll prev (some s :: rest)).2
      = Telegram.TgPoll.terminal s := by
  rcases h with rfl | rfl <;>
    simp [Telegram.tgSongPoll, successStr, failureStr]

lemma tg_poll_step_nonterminal (prev : Option String) (s : String)
    (rest : List (Option String)) (h : ¬(s = successStr ∨ s = failureStr)) :
    (Telegram.tgSongPoll prev (some s :: rest)).2
      = (Telegram.tgSongPoll (some s) rest).2 := by
  push_neg at h
  obtain ⟨h1, h2⟩ := h
  rw [successStr] at h1
  rw [failureStr] at h2
  simp [Telegram.tgSongPoll, h1, h2]

lemma tg_poll_all_nonterminal (ss : List String) :
    ∀ prev, (∀ s ∈ ss, ¬(s = successStr ∨ s = failureStr)) →
      (Telegram.tgSongPoll prev (ss.map some)).2 = Telegram.TgPoll.hang := by
  induction ss with
  | nil => intro prev _; simp [Telegram.tgSongPoll]
  | cons s rest ih =>
    intro prev h
    have hs : ¬(s = successStr ∨ s = failureStr) := h s (by simp)
    rw [List.map_cons, tg_poll_step_nonterminal prev s _ hs]
    exact ih (some s) fun x hx => h x (by simp [hx])

lemma video_poll_step_pending (d : Telegram.VideoResp)
    (rest : List (Option Telegram.VideoResp))
    (h : d.status = some Telegram.pendingStr) :
    (Telegram.videoPollRun (some d :: rest)).2
      = (Telegram.videoPollRun rest).2 := by
  simp [Telegram.videoPollRun, h]

lemma video_poll_step_exit (d : Telegram.VideoResp)
    (rest : List (Option Telegram.VideoResp))
    (h : d.status ≠ some Telegram.pendingStr) :
    (Telegram.videoPollRun (some d :: rest)).2
      = Telegram.VideoPollOut.done d := by
  simp [Telegram.videoPollRun, h]

lemma video_poll_all_pending (ds : List Telegram.VideoResp)
    (h : ∀ d ∈ ds, d.status = some Telegram.pendingStr) :
    (Telegram.videoPollRun (ds.map some)).2 = Telegram.VideoPollOut.hang := by
  induction ds with
  | nil => simp [Telegram.videoPollRun]
  | cons d rest ih =>
    rw [List.map_cons, video_poll_step_pending d _ (h d (by simp))]
    exact ih fun x hx => h x (by simp [hx])

lemma rock_poll_lines (ss : List String) :
    ∀ prev, (statusLines (Rock.poll_status prev (ss.map some)).1).length
      = changes prev (processedStatuses ss) := by
  induction ss with
  | nil => intro prev; simp [Rock.poll_status, processedStatuses, changes]
  | cons s rest ih =>
    intro prev
    by_cases hterm : s = successStr ∨ s = failureStr
    · have hmem : s ∈ Rock.terminalStatuses := (mem_terminal_iff s).2 hterm
      rw [List.map_cons]
      simp [Rock.poll_status, hmem, processedStatuses, hterm, changes]
      by_cases hp : prev = some s <;> simp [hp]
    · have hmem : s ∉ Rock.terminalStatuses := fun hc =>
        hterm ((mem_terminal_iff s).1 hc)
      rw [List.map_cons]
      simp [Rock.poll_status, hmem, processedStatuses, hterm, changes,
        ih (some s)]
      by_cases hp : prev = some s <;> simp [hp]

lemma tg_poll_lines (ss : List String) :
    ∀ prev, (statusLines (Telegram.tgSongPoll prev (ss.map some)).1).length
      = changes prev (processedStatuses ss) := by
  induction ss with
  | nil => intro prev; simp [Telegram.tgSongPoll, processedStatuses, changes]
  | cons s rest ih =>
    intro prev
    by_cases hterm : s = successStr ∨ s = failureStr
    · rw [List.map_cons]
      rcases hterm with rfl | rfl <;>
        · simp [Telegram.tgSongPoll, processedStatuses, changes,
            successStr, failureStr]
          by_cases hp : prev = some successStr <;>
            by_cases hq : prev = some failureStr <;>
              simp_all [successStr, failureStr]
    · have h1 : ¬s = successStr := fun hc => hterm (Or.inl hc)
      have h2 : ¬s = failureStr := fun hc => hterm (Or.inr hc)
      rw [successStr] at h1
      rw [failureStr] at h2
      rw [List.map_cons]
      simp [Telegram.tgSongPoll, processedStatuses, h1, h2, changes,
        ih (some s), successStr, failureStr]
      by_cases hp : prev = some s <;> simp [hp]

lemma destutter_aux_length (ss : List String) :
    ∀ a, (List.destutter' (fun x y : String => x ≠ y) a ss).length
      = 1 + changes (some a) ss := by
  induction ss with
  | nil => intro a; simp [List.destutter', changes]
  | cons b rest ih =>
    intro a
    rw [List.destutter'_cons]
    rcases eq_or_ne a b with rfl | hab
    · rw [if_neg (by simp)]
      rw [ih a]
      simp [changes]
    · rw [if_pos hab]
      simp only [List.length_cons, ih b]
      simp [changes, hab]
      omega

lemma changes_none_destutter (ss : List String) :
    changes none ss = (ss.destutter (fun x y : String => x ≠ y)).length := by
  cases ss with
  | nil => simp [changes, List.destutter_nil]
  | cons s rest =>
    rw [List.destutter_cons', destutter_aux_length rest s]
    simp [changes]

lemma rock_success_inv (key : String) (w : Rock.RockWorld)
    (out : Outcome (Option String)) (fn : String)
    (hrun : Rock.generate_rock_song key w = PyRun.ret out)
    (hres : out.result = some fn) :
    ∃ task_id rd url bytes,
      w.submit = some task_id ∧ w.genResp = some rd
        ∧ rd.song_paths.head? = some url ∧ w.fetch url = some bytes
        ∧ fn = "rock_song_" ++ task_id ++ ".ogg"
        ∧ out.files = [(fn, bytes)] := by
  by_cases hk : key = sonautoPlaceholder
  · simp [Rock.generate_rock_song, hk] at hrun
    subst hrun
    simp at hres
  · obtain ⟨sub, trace, gen, fetch⟩ := w
    cases sub with
    | none =>
      simp [Rock.generate_rock_song, hk] at hrun
      subst hrun
      simp at hres
    | some task_id =>
      cases hpoll : (Rock.poll_status none trace).2 with
      | none => simp [Rock.generate_rock_song, hk, hpoll] at hrun
      | some status =>
        by_cases hfail : status = "FAILURE"
        · cases gen with
          | none =>
            simp [Rock.generate_rock_song, hk, hpoll, hfail] at hrun
            subst hrun
            simp at hres
          | some ed =>
            simp [Rock.generate_rock_song, hk, hpoll, hfail] at hrun
            subst hrun
            simp at hres
        · cases gen with
          | none =>
            simp [Rock.generate_rock_song, hk, hpoll, hfail] at hrun
            subst hrun
            simp at hres
          | some rd =>
            cases hsp : rd.song_paths with
            | nil => simp [Rock.generate_rock_song, hk, hpoll, hfail, hsp] at hrun
            | cons url tl =>
              cases hf : fetch url with
              | none =>
                simp [Rock.generate_rock_song, hk, hpoll, hfail, hsp, hf] at hrun
                subst hrun
                simp at hres
              | some bytes =>
                simp [Rock.generate_rock_song, hk, hpoll, hfail, hsp, hf] at hrun
                subst hrun
                simp at hres
                subst hres
                exact ⟨task_id, rd, url, bytes, rfl, rfl, by simp [hsp],
                  by simpa using hf, rfl, by simp⟩

lemma trans_body_inv (w : Transition.TransWorld)
    (out : Outcome (Option String)) (fn : String)
    (hrun : Transition.createTransitionBody w = PyRun.ret out)
    (hres : out.result = some fn) :
    ∃ task_id rd url bytes,
      w.submit = some task_id ∧ w.genResp = some rd
        ∧ rd.song_paths.head? = some url ∧ w.fetch url = some bytes
        ∧ fn = "transition_" ++ task_id ++ ".ogg"
        ∧ out.files = [(fn, bytes)] := by
  obtain ⟨sub, trace, gen, fetch, sz, rsz, yt⟩ := w
  cases sub with
  | none =>
    simp [Transition.createTransitionBody] at hrun
    subst hrun
    simp at hres
  | some task_id =>
    cases hpoll : (Transition.poll_status none trace).2 with
    | none => simp [Transition.createTransitionBody, hpoll] at hrun
    | some status =>
      by_cases hfail : status = "FAILURE"
      · cases gen with
        | none =>
          simp [Transition.createTransitionBody, hpoll, hfail] at hrun
          subst hrun
          simp at hres
        | some ed =>
          simp [Transition.createTransitionBody, hpoll, hfail] at hrun
          subst hrun
          simp at hres
      · cases gen with
        | none =>
          simp [Transition.createTransitionBody, hpoll, hfail] at hrun
          subst hrun
          simp at hres
        | some rd =>
          cases hsp : rd.song_paths with
          | nil =>
            simp [Transition.createTransitionBody, hpoll, hfail, hsp] at hrun
          | cons url tl =>
            cases hf : fetch url with
            | none =>
              simp [Transition.createTransitionBody, hpoll, hfail, hsp, hf]
                at hrun
              subst hrun
              simp at hres
            | some bytes =>
              simp [Transition.createTransitionBody, hpoll, hfail, hsp, hf]
                at hrun
              subst hrun
              simp at hres
              subst hres
              exact ⟨task_id, rd, url, bytes, rfl, rfl, by simp [hsp],
                by simpa using hf, rfl, by simp⟩

lemma trans_success_inv (w : Transition.TransWorld)
    (out : Outcome (Option String)) (fn : String)
    (hrun : Transition.create_transition w = PyRun.ret out)
    (hres : out.result = some fn) :
    ∃ task_id rd url bytes,
      w.submit = some task_id ∧ w.genResp = some rd
        ∧ rd.song_paths.head? = some url ∧ w.fetch url = some bytes
        ∧ fn = "transition_" ++ task_id ++ ".ogg"
        ∧ out.files = [(fn, bytes)] := by
  unfold Transition.create_transition at hrun
  split at hrun
  · split at hrun
    · injection hrun with h
      subst h
      simp at hres
    · exact trans_body_inv w out fn hrun hres
  · exact trans_body_inv w out fn hrun hres

lemma tg_success_inv (w : Telegram.TelegramWorld)
    (out : Outcome (Option Telegram.SongData)) (sd : Telegram.SongData)
    (hrun : Telegram.generate_custom_song w = PyRun.ret out)
    (hres : out.result = some sd) :
    ∃ rd url bytes,
      w.submit = some sd.task_id ∧ w.genResp = some rd
        ∧ rd.song_paths.head? = some url ∧ w.fetch url = some bytes
        ∧ sd.song_url = url
        ∧ sd.local_path = "telegram_song_" ++ sd.task_id ++ ".ogg"
        ∧ out.files = [(sd.local_path, bytes)] := by
  obtain ⟨sub, trace, gen, fetch, vsub, vtrace, vfetch⟩ := w
  cases sub with
  | none =>
    simp [Telegram.generate_custom_song] at hrun
    subst hrun
    simp at hres
  | some task_id =>
    cases hpoll : (Telegram.tgSongPoll none trace).2 with
    | hang => simp [Telegram.generate_custom_song, hpoll] at hrun
    | exc =>
      simp [Telegram.generate_custom_song, hpoll] at hrun
      subst hrun
      simp at hres
    | terminal st =>
      by_cases hfail : st = "FAILURE"
      · cases gen with
        | none =>
          simp [Telegram.generate_custom_song, hpoll, hfail] at hrun
          subst hrun
          simp at hres
        | some ed =>
          simp [Telegram.generate_custom_song, hpoll, hfail] at hrun
          subst hrun
          simp at hres
      · cases gen with
        | none =>
          simp [Telegram.generate_custom_song, hpoll, hfail] at hrun
          subst hrun
          simp at hres
        | some rd =>
          cases hsp : rd.song_paths with
          | nil =>
            simp [Telegram.generate_custom_song, hpoll, hfail, hsp] at hrun
            subst hrun
            simp at hres
          | cons url tl =>
            cases hf : fetch url with
            | none =>
              simp [Telegram.generate_custom_song, hpoll, hfail, hsp, hf]
                at hrun
              subst hrun
              simp at hres
            | some bytes =>
              simp [Telegram.generate_custom_song, hpoll, hfail, hsp, hf]
                at hrun
              subst hrun
              simp at hres
              subst hres
              exact ⟨rd, url, bytes, rfl, rfl, by simp [hsp],
                by simpa using hf, rfl, rfl, by simp⟩

/-! ### Concrete instances used by witnesses and counterexamples -/

/-- A non-placeholder API key. -/
def keyGood : String := "k"

/-- A concrete task id. -/
def tid1 : String := "t1"

/-- A concrete artifact URL. -/
def url1 : String := "u1"

/-- A result body with one song path and no `error_message`. -/
def rd1 : ResultData := ⟨[url1], none, none, [], none⟩

/-- A result body with no song paths and no `error_message`. -/
def rdNoErr : ResultData := ⟨[], none, none, [], none⟩

/-- A rock world whose job succeeds and whose download serves `[7]`. -/
def wRock1 : Rock.RockWorld :=
  ⟨some tid1, [ some successStr ], some rd1, fun _ => some [7]⟩

/-- A rock world whose job fails and whose error detail has no message. -/
def wRockFail : Rock.RockWorld :=
  ⟨some tid1, [ some failureStr ], some rdNoErr, fun _ => none⟩

/-- A telegram world whose song job succeeds. -/
def wTg1 : Telegram.TelegramWorld :=
  ⟨some tid1, [ some successStr ], some rd1, fun _ => some [7],
   none, [], fun _ => none⟩

/-- A telegram world whose song job fails with no `error_message`. -/
def wTgFail : Telegram.TelegramWorld :=
  ⟨some tid1, [ some failureStr ], some rdNoErr, fun _ => none,
   none, [], fun _ => none⟩

/-- A transition world whose job succeeds and whose download serves `[7]`. -/
def wTrans1 : Transition.TransWorld :=
  ⟨some tid1, [ some successStr ], some rd1, fun _ => some [7], 0, 0, true⟩

/-- A transition world in which every remote interaction fails. -/
def wTransEmpty : Transition.TransWorld :=
  ⟨none, [], none, fun _ => none, 0, 0, true⟩

/-- An environment with no variables set. -/
def emptyEnv : String → Option String := fun _ => none

/-! ### The claims -/

/-- C1 (amended): each of the three Sonauto job-polling loops
(`poll_status` in rock_song_generator.py and transition_generator.py, and
the inline loop of `generate_custom_song` in singing_telegram.py) exits
exactly upon observing "SUCCESS" or "FAILURE" and performs another
iteration on any other status string — a trace of only non-terminal
statuses never makes the loop exit.  The Lemon Slice video-polling loop of
`create_singing_video`, however, iterates exactly while the status equals
"pending": it exits on any other status value, not only on its terminal
string "completed". -/
theorem C1_loop_exits_only_on_terminal :
    (∀ (prev : Option String) (s : String) (rest : List (Option String)),
        (s ∈ Rock.terminalStatuses →
          (Rock.poll_status prev (some s :: rest)).2 = some s)
      ∧ (s ∉ Rock.terminalStatuses →
          (Rock.poll_status prev (some s :: rest)).2
            = (Rock.poll_status (some s) rest).2))
  ∧ (∀ ss : List String, (∀ s ∈ ss, s ∉ Rock.terminalStatuses) →
      ∀ prev, (Rock.poll_status prev (ss.map some)).2 = none)
  ∧ (∀ (prev : Option String) (s : String) (rest : List (Option String)),
        (s ∈ Transition.terminalStatuses →
          (Transition.poll_status prev (some s :: rest)).2 = some s)
      ∧ (s ∉ Transition.terminalStatuses →
          (Transition.poll_status prev (some s :: rest)).2
            = (Transition.poll_status (some s) rest).2))
  ∧ (∀ ss : List String, (∀ s ∈ ss, s ∉ Transition.terminalStatuses) →
      ∀ prev, (Transition.poll_status prev (ss.map some)).2 = none)
  ∧ (∀ (prev : Option String) (s : String) (rest : List (Option String)),
        ((s = successStr ∨ s = failureStr) →
          (Telegram.tgSongPoll prev (some s :: rest)).2
            = Telegram.TgPoll.terminal s)
      ∧ (¬(s = successStr ∨ s = failureStr) →
          (Telegram.tgSongPoll prev (some s :: rest)).2
            = (Telegram.tgSongPoll (some s) rest).2))
  ∧ (∀ ss : List String, (∀ s ∈ ss, ¬(s = successStr ∨ s = failureStr)) →
      ∀ prev, (Telegram.tgSongPoll prev (ss.map some)).2
        = Telegram.TgPoll.hang)
  ∧ (∀ (d : Telegram.VideoResp) (rest : List (Option Telegram.VideoResp)),
        (d.status = some Telegram.pendingStr →
          (Telegram.videoPollRun (some d :: rest)).2
            = (Telegram.videoPollRun rest).2)
      ∧ (d.status ≠ some Telegram.pendingStr →
          (Telegram.videoPollRun (some d :: rest)).2
            = Telegram.VideoPollOut.done d)) :=
  ⟨fun prev s rest =>
      ⟨rock_poll_step_terminal prev s rest,
       rock_poll_step_nonterminal prev s rest⟩,
   fun ss h prev => rock_poll_all_nonterminal ss prev h,
   fun prev s rest =>
      ⟨trans_poll_step_terminal prev s rest,
       trans_poll_step_nonterminal prev s rest⟩,
   fun ss h prev => trans_poll_all_nonterminal ss prev h,
   fun prev s rest =>
      ⟨tg_poll_step_terminal prev s rest,
       tg_poll_step_nonterminal prev s rest⟩,
   fun ss h prev => tg_poll_all_nonterminal ss prev h,
   fun d rest =>
      ⟨video_poll_step_pending d rest,
       video_poll_step_exit d rest⟩⟩

/-- C1 witness: concrete instances of the amended statement — the rock
loop iterates on "processing" and exits on "SUCCESS"; the video loop
iterates on "pending" and exits on "processing". -/
theorem C1_loop_exits_only_on_terminal_witness :
    ((Rock.poll_status none [ some processingStr, some successStr ]).2
        = (Rock.poll_status (some processingStr) [ some successStr ]).2)
      ∧ (Rock.poll_status none [ some successStr ]).2 = some successStr
      ∧ ((Telegram.videoPollRun [ some ⟨some Telegram.pendingStr, none⟩ ]).2
        = (Telegram.videoPollRun []).2)
      ∧ ((Telegram.videoPollRun [ some ⟨some processingStr, none⟩ ]).2
        = Telegram.VideoPollOut.done ⟨some processingStr, none⟩) :=
  ⟨(C1_loop_exits_only_on_terminal.1 none processingStr
      [ some successStr ]).2 (by decide),
   (C1_loop_exits_only_on_terminal.1 none successStr []).1 (by decide),
   (C1_loop_exits_only_on_terminal.2.2.2.2.2.2
      ⟨some Telegram.pendingStr, none⟩ []).1 rfl,
   (C1_loop_exits_only_on_terminal.2.2.2.2.2.2
      ⟨some processingStr, none⟩ []).2 (by decide)⟩

/-- C1 counterexample: the video-polling loop of `create_singing_video`
exits upon observing the status "processing", a string that is neither its
terminal string "completed" nor "pending" — so, contrary to the claim, a
non-terminal status string does cause that loop to exit. -/
theorem C1_video_loop_exits_on_nonterminal :
    (Telegram.videoPollRun [ some ⟨some processingStr, none⟩ ]).2
        = Telegram.VideoPollOut.done ⟨some processingStr, none⟩
      ∧ processingStr ≠ Telegram.completedStr
      ∧ processingStr ≠ Telegram.pendingStr := by
  refine ⟨by decide, by decide, by decide⟩

/-- C2: over any sequence of polled status strings, the Sonauto polling
loops of rock_song_generator.py and singing_telegram.py print exactly one
status line per maximal run of consecutive identical statuses:
`processedStatuses ss` is the prefix of the trace the loop consumes
(everything up to and including the first terminal status) and
`List.destutter (· ≠ ·)` keeps exactly one element of each maximal run of
consecutive equal values, so repeated identical polls add no output. -/
theorem C2_status_lines_once_per_run :
    ∀ ss : List String,
      ((statusLines (Rock.poll_status none (ss.map some)).1).length
          = ((processedStatuses ss).destutter (fun x y : String => x ≠ y)).length)
        ∧ ((statusLines (Telegram.tgSongPoll none (ss.map some)).1).length
          = ((processedStatuses ss).destutter (fun x y : String => x ≠ y)).length) := by
  intro ss
  constructor
  · rw [rock_poll_lines ss none, changes_none_destutter]
  · rw [tg_poll_lines ss none, changes_none_destutter]

/-- C3: in each of the three scripts, whenever the generation workflow
returns successfully with a saved file, the bytes written to that file are
exactly the bytes fetched from the first URL of the result's `song_paths`
array. -/
theorem C3_saved_bytes_equal_fetched :
    (∀ key (w : Rock.RockWorld) out fn,
        Rock.generate_rock_song key w = PyRun.ret out →
        out.result = some fn →
        ∃ rd url bytes,
          w.genResp = some rd ∧ rd.song_paths.head? = some url
            ∧ w.fetch url = some bytes ∧ out.files = [(fn, bytes)])
  ∧ (∀ (w : Telegram.TelegramWorld) out sd,
        Telegram.generate_custom_song w = PyRun.ret out →
        out.result = some sd →
        ∃ rd url bytes,
          w.genResp = some rd ∧ rd.song_paths.head? = some url
            ∧ w.fetch url = some bytes
            ∧ out.files = [(sd.local_path, bytes)])
  ∧ (∀ (w : Transition.TransWorld) out fn,
        Transition.create_transition w = PyRun.ret out →
        out.result = some fn →
        ∃ rd url bytes,
          w.genResp = some rd ∧ rd.song_paths.head? = some url
            ∧ w.fetch url = some bytes ∧ out.files = [(fn, bytes)]) := by
  refine ⟨?_, ?_, ?_⟩
  · intro key w out fn hrun hres
    obtain ⟨tid, rd, url, bytes, _, hg, hh, hf, _, hfl⟩ :=
      rock_success_inv key w out fn hrun hres
    exact ⟨rd, url, bytes, hg, hh, hf, hfl⟩
  · intro w out sd hrun hres
    obtain ⟨rd, url, bytes, _, hg, hh, hf, _, _, hfl⟩ :=
      tg_success_inv w out sd hrun hres
    exact ⟨rd, url, bytes, hg, hh, hf, hfl⟩
  · intro w out fn hrun hres
    obtain ⟨tid, rd, url, bytes, _, hg, hh, hf, _, hfl⟩ :=
      trans_success_inv w out fn hrun hres
    exact ⟨rd, url, bytes, hg, hh, hf, hfl⟩

/-- C3 witness: a concrete successful rock run in which the download
serves `[7]` and the saved file holds exactly those bytes. -/
theorem C3_saved_bytes_equal_fetched_witness :
    ∃ out, Rock.generate_rock_song keyGood wRock1 = PyRun.ret out
      ∧ ∃ rd url bytes,
          wRock1.genResp = some rd ∧ rd.song_paths.head? = some url
            ∧ wRock1.fetch url = some bytes
            ∧ out.files = [("rock_song_" ++ tid1 ++ ".ogg", bytes)] := by
  refine ⟨_, rfl, ?_⟩
  exact C3_saved_bytes_equal_fetched.1 keyGood wRock1 _
    ("rock_song_" ++ tid1 ++ ".ogg") rfl rfl

/-- C4: for input segments of 60 s (60000 ms) and 50 s (50000 ms) and
parameters `song_duration = 45`, `silence_duration = 5`,
`trim_from_end = 0`, `trim_to_start = 0`, `create_concatenated_audio`
computes the inpainting boundaries `(45 - 0.1, 50 + 0.1)` seconds. -/
theorem C4_transition_boundaries :
    (Transition.create_concatenated_audio 60000 50000 45 5 0 0).2.1
        = 45 - 1 / 10
      ∧ (Transition.create_concatenated_audio 60000 50000 45 5 0 0).2.2
        = 50 + 1 / 10 := by
  constructor <;>
    norm_num [Transition.create_concatenated_audio, Transition.pydubSliceLen]

/-- C5: when the job ends in FAILURE and the fetched error detail has no
`error_message` key, both scripts return normally (no exception) and print
a failure diagnostic carrying exactly their defined placeholder string —
`"No detailed error message available"` in rock_song_generator.py and
`"Unknown error"` in singing_telegram.py — never the value `None`. -/
theorem C5_failure_placeholder_message :
    (∀ key (w : Rock.RockWorld) tid ed,
        key ≠ sonautoPlaceholder → w.submit = some tid →
        (Rock.poll_status none w.statusTrace).2 = some failureStr →
        w.genResp = some ed → ed.error_message = none →
        Rock.generate_rock_song key w
          = PyRun.ret ⟨[Ev.httpSubmit]
              ++ (Rock.poll_status none w.statusTrace).1
              ++ [Ev.httpGenFetch, Ev.genFailed noDetailMsg], [], none⟩)
  ∧ (∀ (w : Telegram.TelegramWorld) tid ed,
        w.submit = some tid →
        (Telegram.tgSongPoll none w.statusTrace).2
          = Telegram.TgPoll.terminal failureStr →
        w.genResp = some ed → ed.error_message = none →
        Telegram.generate_custom_song w
          = PyRun.ret ⟨[Ev.httpSubmit]
              ++ (Telegram.tgSongPoll none w.statusTrace).1
              ++ [Ev.httpGenFetch, Ev.songFailed unknownErrorMsg], [], none⟩) := by
  constructor
  · intro key w tid ed hk hsub hpoll hgen herr
    simp [Rock.generate_rock_song, hk, hsub, hpoll, hgen, herr, failureStr,
      noDetailMsg]
  · intro w tid ed hsub hpoll hgen herr
    simp [Telegram.generate_custom_song, hsub, hpoll, hgen, herr, failureStr,
      unknownErrorMsg]

/-- C5 witness: concrete failing runs with an error detail lacking
`error_message`. -/
theorem C5_failure_placeholder_message_witness :
    Rock.generate_rock_song keyGood wRockFail
        = PyRun.ret ⟨[Ev.httpSubmit]
            ++ (Rock.poll_status none wRockFail.statusTrace).1
            ++ [Ev.httpGenFetch, Ev.genFailed noDetailMsg], [], none⟩
      ∧ Telegram.generate_custom_song wTgFail
        = PyRun.ret ⟨[Ev.httpSubmit]
            ++ (Telegram.tgSongPoll none wTgFail.statusTrace).1
            ++ [Ev.httpGenFetch, Ev.songFailed unknownErrorMsg], [], none⟩ :=
  ⟨C5_failure_placeholder_message.1 keyGood wRockFail tid1 rdNoErr
      (by decide) rfl (by decide) rfl rfl,
   C5_failure_placeholder_message.2 wTgFail tid1 rdNoErr
      rfl (by decide) rfl rfl⟩

/-- C6: when the status query itself fails at the transport level
(`api_request` returns `None`, a `none` entry of the trace), `poll_status`
in both rock_song_generator.py and transition_generator.py returns the
terminal value "FAILURE" at once — with exactly one status request made
and no further iteration, whatever the rest of the trace holds. -/
theorem C6_transport_failure_is_terminal :
    ∀ (prev : Option String) (rest : List (Option String)),
      Rock.poll_status prev (none :: rest)
          = ([Ev.httpStatusPoll, Ev.apiError], some failureStr)
        ∧ Transition.poll_status prev (none :: rest)
          = ([Ev.httpStatusPoll, Ev.apiError], some failureStr) :=
  fun _ _ => ⟨rfl, rfl⟩

/-- C7: in all three scripts, a missing or placeholder API key makes the
script print the key diagnostic and stop before issuing any HTTP request:
with the key absent from the environment, `os.getenv` yields the
placeholder (rock, telegram) or `None` (transition), and the guarded entry
points return an outcome whose events contain a key warning and no HTTP
event, with no files written. -/
theorem C7_missing_key_blocks_requests :
    (∀ env : String → Option String, env sonautoKeyVar = none →
        getenvD env sonautoKeyVar sonautoPlaceholder = sonautoPlaceholder)
  ∧ (∀ env : String → Option String, env sonautoKeyVar = none →
        pyFalsyOptStr (env sonautoKeyVar) = true)
  ∧ (∀ key (w : Rock.RockWorld), key = sonautoPlaceholder →
        Rock.generate_rock_song key w = PyRun.ret ⟨[Ev.keyWarning], [], none⟩)
  ∧ (∀ sk lk (w : Telegram.TelegramWorld),
        sk = sonautoPlaceholder ∨ lk = lemonPlaceholder →
        ∃ out, Telegram.create_singing_telegram sk lk w = PyRun.ret out
          ∧ out.events.filter isHttpEv = []
          ∧ (Ev.keyWarning ∈ out.events ∨ Ev.lemonKeyWarning ∈ out.events)
          ∧ out.result = false ∧ out.files = [])
  ∧ (∀ k (w : Transition.TransWorld), pyFalsyOptStr k = true →
        Transition.transition_main k w
          = PyRun.ret ⟨[Ev.keyWarning], [], false⟩) := by
  refine ⟨?_, ?_, ?_, ?_, ?_⟩
  · intro env h; simp [getenvD, h]
  · intro env h; simp [pyFalsyOptStr, h]
  · intro key w h; simp [Rock.generate_rock_song, h]
  · intro sk lk w h
    by_cases hs : sk = sonautoPlaceholder
    · refine ⟨⟨[Ev.keyWarning], [], false⟩, ?_, rfl, by simp, rfl, rfl⟩
      simp [Telegram.create_singing_telegram, Telegram.check_api_keys, hs]
    · have hl : lk = lemonPlaceholder := h.resolve_left hs
      refine ⟨⟨[Ev.lemonKeyWarning], [], false⟩, ?_, rfl, by simp, rfl, rfl⟩
      simp [Telegram.create_singing_telegram, Telegram.check_api_keys, hs, hl]
  · intro k w h; simp [Transition.transition_main, h]

/-- C7 witness: concrete blocked runs for each script, and the environment
fallbacks for an absent key. -/
theorem C7_missing_key_blocks_requests_witness :
    getenvD emptyEnv sonautoKeyVar sonautoPlaceholder = sonautoPlaceholder
      ∧ pyFalsyOptStr (emptyEnv sonautoKeyVar) = true
      ∧ Rock.generate_rock_song sonautoPlaceholder wRock1
        = PyRun.ret ⟨[Ev.keyWarning], [], none⟩
      ∧ (∃ out, Telegram.create_singing_telegram sonautoPlaceholder keyGood wTg1
            = PyRun.ret out
          ∧ out.events.filter isHttpEv = []
          ∧ (Ev.keyWarning ∈ out.events ∨ Ev.lemonKeyWarning ∈ out.events)
          ∧ out.result = false ∧ out.files = [])
      ∧ Transition.transition_main none wTransEmpty
        = PyRun.ret ⟨[Ev.keyWarning], [], false⟩ :=
  ⟨C7_missing_key_blocks_requests.1 emptyEnv rfl,
   C7_missing_key_blocks_requests.2.1 emptyEnv rfl,
   C7_missing_key_blocks_requests.2.2.1 sonautoPlaceholder wRock1 rfl,
   C7_missing_key_blocks_requests.2.2.2.1 sonautoPlaceholder keyGood wTg1
     (Or.inl rfl),
   C7_missing_key_blocks_requests.2.2.2.2 none wTransEmpty rfl⟩

lemma rock_filename_ne_empty (t : String) :
    ("rock_song_" ++ t ++ ".ogg").isEmpty = false := by
  rw [Bool.eq_false_iff]
  intro h
  rw [String.isEmpty_iff] at h
  have h2 := congrArg String.length h
  simp [String.length_append] at h2
  exact absurd h2.2 (by decide)

/-- C8 counterexample: with the Sonauto key absent from the environment
(a configuration error, an unrecovered workflow failure), `main` of
transition_generator.py prints the warning and returns normally, and the
process exit code is 0, not non-zero — the script never calls `sys.exit`. -/
theorem C8_transition_exit_zero_on_failure :
    Transition.transition_main none wTransEmpty
        = PyRun.ret ⟨[Ev.keyWarning], [], false⟩
      ∧ Transition.mainExit none wTransEmpty = some 0 :=
  ⟨rfl, rfl⟩

/-- C8 (amended): rock_song_generator.py and singing_telegram.py exit with
code 0 exactly when the workflow succeeds and with 1 when it fails
(including a crash from an uncaught exception); transition_generator.py,
which never calls `sys.exit`, exits with code 0 whenever `main` returns,
even when a workflow step failed unrecovered. -/
theorem C8_exit_codes_amended :
    (∀ key (w : Rock.RockWorld) out,
        Rock.generate_rock_song key w = PyRun.ret out →
        (out.result = none → Rock.mainExit key w = some 1)
          ∧ ∀ fn, out.result = some fn → Rock.mainExit key w = some 0)
  ∧ (∀ key (w : Rock.RockWorld),
        Rock.generate_rock_song key w = PyRun.exc →
        Rock.mainExit key w = some 1)
  ∧ (∀ sk lk (w : Telegram.TelegramWorld) out,
        Telegram.create_singing_telegram sk lk w = PyRun.ret out →
        Telegram.mainExit sk lk w = some (if out.result then 0 else 1))
  ∧ (∀ k (w : Transition.TransWorld) out,
        Transition.transition_main k w = PyRun.ret out →
        Transition.mainExit k w = some 0) := by
  refine ⟨?_, ?_, ?_, ?_⟩
  · intro key w out hrun
    constructor
    · intro hres
      simp [Rock.mainExit, hrun, hres, pyFalsyOptStr]
    · intro fn hres
      obtain ⟨tid, _, _, _, _, _, _, _, hfn, _⟩ :=
        rock_success_inv key w out fn hrun hres
      simp [Rock.mainExit, hrun, hres, pyFalsyOptStr, hfn,
        rock_filename_ne_empty]
  · intro key w hrun
    simp [Rock.mainExit, hrun]
  · intro sk lk w out hrun
    simp [Telegram.mainExit, hrun]
  · intro k w out hrun
    simp [Transition.mainExit, hrun]

/-- C8 witness: a failing rock run exits 1, a successful rock run exits 0,
and a transition run whose configuration check fails exits 0. -/
theorem C8_exit_codes_amended_witness :
    Rock.mainExit keyGood wRockFail = some 1
      ∧ Rock.mainExit keyGood wRock1 = some 0
      ∧ Transition.mainExit none wTransEmpty = some 0 :=
  ⟨(C8_exit_codes_amended.1 keyGood wRockFail _ rfl).1 rfl,
   (C8_exit_codes_amended.1 keyGood wRock1 _ rfl).2
     ("rock_song_" ++ tid1 ++ ".ogg") rfl,
   C8_exit_codes_amended.2.2.2 none wTransEmpty _ rfl⟩

/-- C9: whatever the sequence of poll responses — including transport
failures — whenever `poll_status` (in rock_song_generator.py or
transition_generator.py) returns, its value is exactly "SUCCESS" or
"FAILURE". -/
theorem C9_poll_returns_only_terminal :
    ∀ (trace : List (Option String)) (prev : Option String) (s : String),
      ((Rock.poll_status prev trace).2 = some s →
        s = successStr ∨ s = failureStr)
      ∧ ((Transition.poll_status prev trace).2 = some s →
        s = successStr ∨ s = failureStr) :=
  fun trace prev s =>
    ⟨rock_poll_result_terminal trace prev s,
     trans_poll_result_terminal trace prev s⟩

/-- C9 witness: a transport failure at the first poll makes both loops
return, and the returned value is one of the two terminal strings. -/
theorem C9_poll_returns_only_terminal_witness :
    (failureStr = successStr ∨ failureStr = failureStr)
      ∧ (failureStr = successStr ∨ failureStr = failureStr) :=
  ⟨(C9_poll_returns_only_terminal [none] none failureStr).1 rfl,
   (C9_poll_returns_only_terminal [none] none failureStr).2 rfl⟩

/-- C10: for all input lengths and parameter values, the inpainting window
of `create_concatenated_audio` satisfies
`silence_end - silence_start = silence_duration + 0.2` seconds (0.2 = 1/5),
independent of the song lengths and trim amounts. -/
theorem C10_inpaint_window_width :
    ∀ len1 len2 sd sil tfe tts : ℚ,
      (Transition.create_concatenated_audio len1 len2 sd sil tfe tts).2.2
          - (Transition.create_concatenated_audio len1 len2 sd sil tfe tts).2.1
        = sil + 1 / 5 := by
  intro len1 len2 sd sil tfe tts
  simp [Transition.create_concatenated_audio]
  ring

end SonautoExamples
